import Mathlib

/-!
Shallow embedding of `cmd/mps-control-daemon/mps/manager.go` from the
k8s-device-plugin repository: the MPS daemon-provisioning decision engine.

The engine consumes an ordered collection of resource groups (each group is
a named resource with its member devices, produced by the external resource
manager `rm.NewNVMLResourceManagers`; the engine is modelled as a function of
that already-materialized collection, as in the spec's
`computeDaemons(policy, resourceGroups)` contract) and yields the list of MPS
daemons to run, or a configuration error.

Collaborator code of the repository that is not part of the provided source
(the `rm` package's device/annotation accessors, `mpsDevice.assertReplicas`,
`NewDaemon` and `ContainerRoot` from the `mps` package, the config type's
`SharingStrategy()`) is modelled from the spec; each such definition carries a
doc comment saying so. Logging (`klog`) is modelled as an explicit list of
structured diagnostic entries returned alongside the result.
-/

namespace Mps

/-- Modelled from the spec: the operator-selected sharing strategy, an
enumerated value with at least the members None, TimeSlicing and MPS; only
MPS activates the engine. Stands in for `spec.Config.Sharing.SharingStrategy()`
of `api/config/v1`, which is not part of the provided source. -/
inductive SharingStrategy where
  | NoSharing
  | TimeSlicing
  | MPS
  deriving DecidableEq

/-- Modelled from the spec: the relevant part of the process-wide
configuration read once at construction time — the sharing strategy. The
`New` constructor below takes a `Config` value, embodying the Go
precondition that the options installed a non-nil configuration. -/
structure Config where
  strategy : SharingStrategy
  deriving DecidableEq

/-- Modelled from the spec: a member device of a resource group, with its
identity, an optional sharing annotation (here: whether the annotation is
present), the hardware-partition (MIG) membership flag, and the declared
replica count. Stands in for `rm.Device` together with the accessors
`IsMigDevice` and the annotation metadata of `rm.AnnotatedIDs`, which are
not part of the provided source. The replica count is an integer so that
zero and negative declared counts are representable. -/
structure Device where
  id : String
  annotated : Bool
  isMigDevice : Bool
  replicas : Int
  deriving DecidableEq

/-- Modelled from the spec: a named resource group with its ordered member
devices. Stands in for the `rm.ResourceManager` view used by the engine
(`Resource()` and `Devices()`), which is not part of the provided source. -/
structure ResourceGroup where
  resource : String
  devices : List Device
  deriving DecidableEq

/-- Modelled from the spec: the descriptive configuration error produced by
replica validation, identifying the violating device. -/
structure MpsError where
  deviceId : String
  deriving DecidableEq

/-- Modelled from the spec: the fixed, process-wide container-root path for
daemon-owned control state (`ContainerRoot` of the `mps` package, not part
of the provided source; its concrete value is opaque to the engine). -/
def ContainerRoot : String := "/mps"

/-- Modelled from the spec: the output daemon specification, referencing the
originating resource group and the fixed root path (`mps.Daemon`, whose
construction contract is `NewDaemon(resourceManager, ContainerRoot)`). -/
structure Daemon where
  rm : ResourceGroup
  root : String
  deriving DecidableEq

/-- Modelled from the spec: `NewDaemon(resourceManager, ContainerRoot)` —
pure value construction, never fails. -/
def NewDaemon (g : ResourceGroup) : Daemon :=
  { rm := g, root := ContainerRoot }

/-- Modelled from the spec: `rm.AnnotatedIDs(devices.GetIDs()).AnyHasAnnotations()`
— whether any member device carries a sharing annotation. -/
def AnyHasAnnotations (ds : List Device) : Bool :=
  ds.any (fun d => d.annotated)

/-- Modelled from the spec: `(*mpsDevice).assertReplicas` — the declared
replica count of a device must be a positive integer; on an inconsistent
count it yields a descriptive error identifying the violating device. -/
def assertReplicas (d : Device) : Option MpsError :=
  if d.replicas ≤ 0 then some { deviceId := d.id } else none

/-- Structured diagnostic records emitted by the engine, standing in for the
`klog` calls in `manager.Daemons`: `InfoS` for the empty-group and
not-shared skips, `Warning` for the MIG incompatibility notice. -/
inductive LogEntry where
  | noDevices (resource : String)
  | notShared (resource : String)
  | migNotSupported
  deriving DecidableEq

/-- The inner device loop of `manager.Daemons` (lines 92–101 of
`manager.go`): for each device of the group in order, if the device is a
MIG device, emit the warning and `continue` (which in the Go source only
advances this inner loop to the next device); otherwise run
`assertReplicas` and abort with the wrapped error on failure. Returns the
diagnostics emitted and the error, if any. -/
def checkGroupDevices : List Device → List LogEntry × Option MpsError
  | [] => ([], none)
  | d :: rest =>
    if d.isMigDevice then
      let r := checkGroupDevices rest
      (LogEntry.migNotSupported :: r.1, r.2)
    else
      match assertReplicas d with
      | some e => ([], some e)
      | none => checkGroupDevices rest

/-- The loop of `manager.Daemons` over the resource groups (lines 78–105 of
`manager.go`): skip groups with no devices (with an `InfoS` diagnostic),
skip groups none of whose devices carry a sharing annotation (with an
`InfoS` diagnostic), run the inner device loop, and on success append one
daemon for the group; a replica-validation error aborts the whole pass,
discarding any daemons already accumulated (`return nil, err`). -/
def managerDaemons : List ResourceGroup → List LogEntry × Except MpsError (List Daemon)
  | [] => ([], Except.ok [])
  | g :: rest =>
    if g.devices.length = 0 then
      let r := managerDaemons rest
      (LogEntry.noDevices g.resource :: r.1, r.2)
    else if AnyHasAnnotations g.devices then
      match checkGroupDevices g.devices with
      | (logs, some e) => (logs, Except.error e)
      | (logs, none) =>
        let r := managerDaemons rest
        (logs ++ r.1,
          match r.2 with
          | Except.ok ds => Except.ok (NewDaemon g :: ds)
          | Except.error e => Except.error e)
    else
      let r := managerDaemons rest
      (LogEntry.notShared g.resource :: r.1, r.2)

/-- The manager returned by `New`: either the real MPS manager (holding the
configuration) or the null manager. -/
inductive Manager where
  | real (config : Config)
  | null
  deriving DecidableEq

/-- `New` of `manager.go` (lines 55–71): constructs the manager, applies the
options, and if the configured sharing strategy is not MPS returns the null
manager; it returns a nil error on both branches. The error component of
the Go return value is modelled as an `Option MpsError`. -/
def New (config : Config) : Manager × Option MpsError :=
  if config.strategy ≠ SharingStrategy.MPS then (Manager.null, none)
  else (Manager.real config, none)

/-- Dispatch of the `Daemons` method: the real manager runs the decision
loop over the resource groups supplied by the external resource-group
source; `nullManager.Daemons` (lines 109–111) returns an empty result and a
nil error without inspecting anything. -/
def Manager.Daemons : Manager → List ResourceGroup → List LogEntry × Except MpsError (List Daemon)
  | Manager.real _, gs => managerDaemons gs
  | Manager.null, _ => ([], Except.ok [])

/-! ### Equation lemmas for the result component of the two loops -/

/-- Unfolding of the inner device loop on a cons cell, projected to the
error component. -/
theorem checkGroupDevices_snd_cons (d : Device) (rest : List Device) :
    (checkGroupDevices (d :: rest)).2 =
      if d.isMigDevice then (checkGroupDevices rest).2
      else
        match assertReplicas d with
        | some e => some e
        | none => (checkGroupDevices rest).2 := by
  cases hm : d.isMigDevice <;> simp only [checkGroupDevices, hm] <;>
    cases ha : assertReplicas d <;> simp [ha]

/-- Unfolding of the group loop on a cons cell, projected to the result
component. -/
theorem managerDaemons_snd_cons (g : ResourceGroup) (rest : List ResourceGroup) :
    (managerDaemons (g :: rest)).2 =
      if g.devices.length = 0 then (managerDaemons rest).2
      else if AnyHasAnnotations g.devices then
        match (checkGroupDevices g.devices).2 with
        | some e => Except.error e
        | none =>
          match (managerDaemons rest).2 with
          | Except.ok ds => Except.ok (NewDaemon g :: ds)
          | Except.error e => Except.error e
      else (managerDaemons rest).2 := by
  by_cases h0 : g.devices.length = 0 <;>
    cases hA : AnyHasAnnotations g.devices <;>
      simp only [managerDaemons, h0, hA, if_true, if_false, ite_true, ite_false] <;>
        try rfl
  rcases hc : checkGroupDevices g.devices with ⟨logs, me⟩
  cases me <;> simp [hc]

/-! ### Characterization of the inner device loop -/

/-- If every non-MIG device of the list has a positive replica count, the
inner device loop reports no error (MIG devices are never validated: the
warning branch skips straight to the next device). -/
theorem checkGroupDevices_snd_none (ds : List Device)
    (h : ∀ d ∈ ds, d.isMigDevice = false → 0 < d.replicas) :
    (checkGroupDevices ds).2 = none := by
  induction ds with
  | nil => rfl
  | cons d rest ih =>
    rw [checkGroupDevices_snd_cons]
    have hrest := ih (fun x hx => h x (List.mem_cons_of_mem _ hx))
    cases hm : d.isMigDevice
    · have hpos := h d (List.mem_cons_self _ _) hm
      have : assertReplicas d = none := by
        simp [assertReplicas, not_le.mpr hpos]
      simp [hm, this, hrest]
    · simp [hm, hrest]

/-- Any error of the inner device loop originates from a non-MIG member
device whose replica count is not positive, and names that device. -/
theorem checkGroupDevices_snd_some (ds : List Device) (e : MpsError)
    (h : (checkGroupDevices ds).2 = some e) :
    ∃ d ∈ ds, d.isMigDevice = false ∧ d.replicas ≤ 0 ∧ e.deviceId = d.id := by
  induction ds with
  | nil => simp [checkGroupDevices] at h
  | cons d rest ih =>
    rw [checkGroupDevices_snd_cons] at h
    cases hm : d.isMigDevice
    · simp only [hm, Bool.false_eq_true, if_false] at h
      cases ha : assertReplicas d with
      | some e0 =>
        rw [ha] at h
        simp only [Option.some.injEq] at h
        subst h
        unfold assertReplicas at ha
        by_cases hr : d.replicas ≤ 0
        · simp only [hr, if_true] at ha
          have he := Option.some.inj ha
          exact ⟨d, List.mem_cons_self _ _, hm, hr, by rw [← he]⟩
        · simp [hr] at ha
      | none =>
        rw [ha] at h
        obtain ⟨x, hx, hxs⟩ := ih h
        exact ⟨x, List.mem_cons_of_mem _ hx, hxs⟩
    · simp only [hm, if_true] at h
      obtain ⟨x, hx, hxs⟩ := ih h
      exact ⟨x, List.mem_cons_of_mem _ hx, hxs⟩

/-- A non-MIG member device with a non-positive replica count forces the
inner device loop to report an error. -/
theorem checkGroupDevices_error_of (ds : List Device) (d : Device)
    (hd : d ∈ ds) (hmig : d.isMigDevice = false) (hrep : d.replicas ≤ 0) :
    ∃ e, (checkGroupDevices ds).2 = some e := by
  induction ds with
  | nil => simp at hd
  | cons x rest ih =>
    rw [checkGroupDevices_snd_cons]
    rcases List.mem_cons.mp hd with heq | hmem
    · subst heq
      simp only [hmig, Bool.false_eq_true, if_false]
      have : assertReplicas d = some ⟨d.id⟩ := by simp [assertReplicas, hrep]
      rw [this]
      exact ⟨_, rfl⟩
    · cases hm : x.isMigDevice
      · simp only [hm, Bool.false_eq_true, if_false]
        cases ha : assertReplicas x with
        | some e0 => exact ⟨e0, rfl⟩
        | none => exact ih hmem
      · simp only [hm, if_true]
        exact ih hmem

/-! ### Characterization of the group loop -/

/-- If every non-MIG device of every group has a positive replica count,
the provisioning pass succeeds, whatever the replica counts of MIG devices
are. -/
theorem managerDaemons_ok_of (gs : List ResourceGroup)
    (h : ∀ g ∈ gs, ∀ d ∈ g.devices, d.isMigDevice = false → 0 < d.replicas) :
    ∃ ds, (managerDaemons gs).2 = Except.ok ds := by
  induction gs with
  | nil => exact ⟨[], rfl⟩
  | cons g rest ih =>
    obtain ⟨ds, hds⟩ := ih (fun x hx => h x (List.mem_cons_of_mem _ hx))
    rw [managerDaemons_snd_cons]
    by_cases h0 : g.devices.length = 0
    · exact ⟨ds, by simp [h0, hds]⟩
    · cases hA : AnyHasAnnotations g.devices
      · exact ⟨ds, by simp [h0, hA, hds]⟩
      · have hchk := checkGroupDevices_snd_none g.devices
          (h g (List.mem_cons_self _ _))
        refine ⟨NewDaemon g :: ds, ?_⟩
        simp [h0, hA, hchk, hds]

/-- Any error of the provisioning pass originates from a non-MIG device of
some input group whose replica count is not positive, and names that
device. -/
theorem managerDaemons_snd_error (gs : List ResourceGroup) (e : MpsError)
    (h : (managerDaemons gs).2 = Except.error e) :
    ∃ g ∈ gs, ∃ d ∈ g.devices, d.isMigDevice = false ∧ d.replicas ≤ 0 ∧ e.deviceId = d.id := by
  induction gs with
  | nil => simp [managerDaemons] at h
  | cons g rest ih =>
    rw [managerDaemons_snd_cons] at h
    by_cases h0 : g.devices.length = 0
    · simp only [h0, if_true] at h
      obtain ⟨x, hx, hxs⟩ := ih h
      exact ⟨x, List.mem_cons_of_mem _ hx, hxs⟩
    · cases hA : AnyHasAnnotations g.devices
      · simp only [h0, hA, Bool.false_eq_true, if_false, ite_false] at h
        obtain ⟨x, hx, hxs⟩ := ih h
        exact ⟨x, List.mem_cons_of_mem _ hx, hxs⟩
      · simp only [h0, hA, if_false, if_true, ite_false] at h
        cases hc : (checkGroupDevices g.devices).2 with
        | some e0 =>
          rw [hc] at h
          simp only [Except.error.injEq] at h
          subst h
          obtain ⟨d, hd, hds⟩ := checkGroupDevices_snd_some g.devices e0 hc
          exact ⟨g, List.mem_cons_self _ _, d, hd, hds⟩
        | none =>
          rw [hc] at h
          cases hr : (managerDaemons rest).2 with
          | ok ds => rw [hr] at h; simp at h
          | error e0 =>
            rw [hr] at h
            simp only [Except.error.injEq] at h
            subst h
            obtain ⟨x, hx, hxs⟩ := ih hr
            exact ⟨x, List.mem_cons_of_mem _ hx, hxs⟩

/-- An annotated, non-MIG device with a non-positive replica count anywhere
in the input forces the provisioning pass to fail: its group passes both the
emptiness and the sharing filter, so the inner device loop reaches the
device (or fails even earlier). -/
theorem managerDaemons_error_of (gs : List ResourceGroup) (g : ResourceGroup) (d : Device)
    (hg : g ∈ gs) (hd : d ∈ g.devices) (hann : d.annotated = true)
    (hmig : d.isMigDevice = false) (hrep : d.replicas ≤ 0) :
    ∃ e, (managerDaemons gs).2 = Except.error e := by
  induction gs with
  | nil => simp at hg
  | cons x rest ih =>
    rw [managerDaemons_snd_cons]
    rcases List.mem_cons.mp hg with heq | hmem
    · subst heq
      have h0 : ¬ g.devices.length = 0 := by
        intro h
        rw [List.length_eq_zero] at h
        simp [h] at hd
      have hA : AnyHasAnnotations g.devices = true := by
        simp only [AnyHasAnnotations, List.any_eq_true]
        exact ⟨d, hd, hann⟩
      obtain ⟨e, he⟩ := checkGroupDevices_error_of g.devices d hd hmig hrep
      refine ⟨e, ?_⟩
      simp [h0, hA, he]
    · by_cases h0 : x.devices.length = 0
      · obtain ⟨e, he⟩ := ih hmem
        exact ⟨e, by simp [h0, he]⟩
      · cases hA : AnyHasAnnotations x.devices
        · obtain ⟨e, he⟩ := ih hmem
          exact ⟨e, by simp [h0, hA, he]⟩
        · cases hc : (checkGroupDevices x.devices).2 with
          | some e0 => exact ⟨e0, by simp [h0, hA, hc]⟩
          | none =>
            obtain ⟨e, he⟩ := ih hmem
            exact ⟨e, by simp [h0, hA, hc, he]⟩

/-- On success, the output is exactly one daemon per group that passed the
emptiness and sharing filters, in input order. -/
theorem managerDaemons_ok_filter (gs : List ResourceGroup) (ds : List Daemon)
    (h : (managerDaemons gs).2 = Except.ok ds) :
    ds = (gs.filter (fun g => decide (g.devices ≠ []) && AnyHasAnnotations g.devices)).map NewDaemon := by
  induction gs generalizing ds with
  | nil =>
    simp only [managerDaemons, Except.ok.injEq] at h
    simp [← h]
  | cons g rest ih =>
    rw [managerDaemons_snd_cons] at h
    by_cases h0 : g.devices.length = 0
    · have hnil : g.devices = [] := List.length_eq_zero.mp h0
      simp only [h0, if_true] at h
      rw [ih ds h]
      simp [hnil]
    · have hne : g.devices ≠ [] := fun hc => h0 (by simp [hc])
      cases hA : AnyHasAnnotations g.devices
      · simp only [h0, hA, Bool.false_eq_true, if_false, ite_false] at h
        rw [ih ds h]
        simp [hne, hA]
      · simp only [h0, hA, if_false, if_true, ite_false] at h
        cases hc : (checkGroupDevices g.devices).2 with
        | some e0 => rw [hc] at h; simp at h
        | none =>
          rw [hc] at h
          cases hr : (managerDaemons rest).2 with
          | error e0 => rw [hr] at h; simp at h
          | ok ds0 =>
            rw [hr] at h
            simp only [Except.ok.injEq] at h
            subst h
            rw [ih ds0 hr]
            simp [hne, hA]

/-- A group that is empty or carries no sharing annotation is transparent to
the result: removing it from the input changes neither the output daemons
nor the error. -/
theorem managerDaemons_skip (g : ResourceGroup)
    (hg : g.devices = [] ∨ AnyHasAnnotations g.devices = false) :
    ∀ pre post : List ResourceGroup,
      (managerDaemons (pre ++ g :: post)).2 = (managerDaemons (pre ++ post)).2 := by
  intro pre post
  induction pre with
  | nil =>
    simp only [List.nil_append]
    rw [managerDaemons_snd_cons]
    rcases hg with hnil | hA
    · simp [hnil]
    · by_cases h0 : g.devices.length = 0
      · simp [h0]
      · simp [h0, hA]
  | cons x pre ih =>
    simp only [List.cons_append]
    rw [managerDaemons_snd_cons, managerDaemons_snd_cons, ih]

/-! ### The claims -/

/-- Claim C1: the spec states that a resource group containing a
hardware-partition (MIG) device never contributes a DaemonSpec, and that a
single group with one annotated, partition-member device (replica count 2)
yields an empty output and a nil error. The code does not do this: the
MIG branch of the inner device loop executes a `continue` that only
advances the inner loop to the next device, so the group is not skipped —
the MIG warning diagnostic (whose own text says the daemon creation is
being skipped) is emitted, the replica check for the MIG device is
bypassed, and a daemon for the group is still created. At the spec's
scenario B input, the pass returns one DaemonSpec and no error instead of
an empty output. -/
theorem c1_mig_group_still_yields_daemon :
    managerDaemons [⟨"gpu0", [⟨"gpu0-dev0", true, true, 2⟩]⟩] =
      ([LogEntry.migNotSupported],
        Except.ok [NewDaemon ⟨"gpu0", [⟨"gpu0-dev0", true, true, 2⟩]⟩]) := by
  rfl

/-- Claim C2: with the MPS policy active, if any group contains a
sharing-annotated, non-partition device with a non-positive replica count,
the pass returns an error naming a violating device, and — the result being
the error alone — no DaemonSpec is returned for any group, including groups
validated before the failing one. -/
theorem c2_invalid_replica_aborts_all (gs : List ResourceGroup) (g : ResourceGroup) (d : Device)
    (hg : g ∈ gs) (hd : d ∈ g.devices) (hann : d.annotated = true)
    (hmig : d.isMigDevice = false) (hrep : d.replicas ≤ 0) :
    ∃ e, (managerDaemons gs).2 = Except.error e ∧
      ∃ g0 ∈ gs, ∃ d0 ∈ g0.devices,
        d0.isMigDevice = false ∧ d0.replicas ≤ 0 ∧ e.deviceId = d0.id := by
  obtain ⟨e, he⟩ := managerDaemons_error_of gs g d hg hd hann hmig hrep
  exact ⟨e, he, managerDaemons_snd_error gs e he⟩

/-- Witness for C2: a valid group followed by a group with an annotated,
non-MIG, replica-count-zero device makes the whole pass fail. -/
theorem c2_witness :
    ∃ e, (managerDaemons [⟨"gpu0", [⟨"a", true, false, 2⟩]⟩, ⟨"gpu1", [⟨"b", true, false, 0⟩]⟩]).2 = Except.error e ∧
      ∃ g0 ∈ [ResourceGroup.mk "gpu0" [⟨"a", true, false, 2⟩], ResourceGroup.mk "gpu1" [⟨"b", true, false, 0⟩]],
        ∃ d0 ∈ g0.devices, d0.isMigDevice = false ∧ d0.replicas ≤ 0 ∧ MpsError.deviceId e = d0.id := by
  exact c2_invalid_replica_aborts_all _ ⟨"gpu1", [⟨"b", true, false, 0⟩]⟩ ⟨"b", true, false, 0⟩
    (by decide) (by decide) (by decide) (by decide) (by decide)

/-- Claim C3: when the configured sharing strategy is not MPS, `New`
returns the null manager, whose `Daemons` returns an empty list and a nil
error for every resource-group input, without inspecting it. -/
theorem c3_non_mps_null_manager (config : Config)
    (h : config.strategy ≠ SharingStrategy.MPS) :
    (New config).1 = Manager.null ∧
      ∀ gs : List ResourceGroup,
        Manager.Daemons (New config).1 gs = ([], Except.ok []) := by
  have hnew : New config = (Manager.null, none) := by simp [New, h]
  exact ⟨by rw [hnew], fun gs => by rw [hnew]; rfl⟩

/-- Witness for C3 at the TimeSlicing strategy. -/
theorem c3_witness :
    (New ⟨SharingStrategy.TimeSlicing⟩).1 = Manager.null ∧
      ∀ gs : List ResourceGroup,
        Manager.Daemons (New ⟨SharingStrategy.TimeSlicing⟩).1 gs = ([], Except.ok []) :=
  c3_non_mps_null_manager ⟨SharingStrategy.TimeSlicing⟩ (by decide)

/-- Claim C4: the only error the real manager's `Daemons` can return is a
replica-count inconsistency — every returned error names a non-MIG device
of some input group whose declared replica count is not positive; the other
exclusions never produce an error. -/
theorem c4_only_error_is_replica_inconsistency (gs : List ResourceGroup) (e : MpsError)
    (h : (managerDaemons gs).2 = Except.error e) :
    ∃ g ∈ gs, ∃ d ∈ g.devices,
      d.isMigDevice = false ∧ d.replicas ≤ 0 ∧ e.deviceId = d.id :=
  managerDaemons_snd_error gs e h

/-- Witness for C4: the error returned for a replica count of -1 names the
offending device. -/
theorem c4_witness :
    ∃ g ∈ [ResourceGroup.mk "gpu0" [⟨"a", true, false, -1⟩]],
      ∃ d ∈ g.devices, d.isMigDevice = false ∧ d.replicas ≤ 0 ∧
        MpsError.deviceId ⟨"a"⟩ = d.id :=
  c4_only_error_is_replica_inconsistency [⟨"gpu0", [⟨"a", true, false, -1⟩]⟩] ⟨"a"⟩ (by rfl)

/-- Claim C5: on success the number of DaemonSpecs returned never exceeds
the number of input resource groups. -/
theorem c5_output_le_input (gs : List ResourceGroup) (ds : List Daemon)
    (h : (managerDaemons gs).2 = Except.ok ds) :
    ds.length ≤ gs.length := by
  rw [managerDaemons_ok_filter gs ds h, List.length_map]
  exact List.length_filter_le _ gs

/-- Witness for C5: two input groups, one output daemon. -/
theorem c5_witness :
    List.length [NewDaemon ⟨"gpu0", [⟨"a", true, false, 2⟩]⟩] ≤
      List.length [ResourceGroup.mk "gpu0" [⟨"a", true, false, 2⟩], ResourceGroup.mk "gpu1" []] :=
  c5_output_le_input
    [⟨"gpu0", [⟨"a", true, false, 2⟩]⟩, ⟨"gpu1", []⟩]
    [NewDaemon ⟨"gpu0", [⟨"a", true, false, 2⟩]⟩] (by rfl)

/-- Claim C6: a resource group with zero member devices is transparent to
the result — it contributes no DaemonSpec and causes no error, wherever it
sits in the input. -/
theorem c6_empty_group_excluded (g : ResourceGroup) (h : g.devices = [])
    (pre post : List ResourceGroup) :
    (managerDaemons (pre ++ g :: post)).2 = (managerDaemons (pre ++ post)).2 :=
  managerDaemons_skip g (Or.inl h) pre post

/-- Witness for C6: removing an empty trailing group leaves the result
unchanged. -/
theorem c6_witness :
    (managerDaemons ([⟨"gpu0", [⟨"a", true, false, 2⟩]⟩] ++ ResourceGroup.mk "gpu1" [] :: [])).2 =
      (managerDaemons ([⟨"gpu0", [⟨"a", true, false, 2⟩]⟩] ++ [])).2 :=
  c6_empty_group_excluded ⟨"gpu1", []⟩ (by rfl) [⟨"gpu0", [⟨"a", true, false, 2⟩]⟩] []

/-- Claim C7: a resource group none of whose member devices carries a
sharing annotation is transparent to the result — it contributes no
DaemonSpec and causes no error, wherever it sits in the input. -/
theorem c7_unannotated_group_excluded (g : ResourceGroup)
    (h : ∀ d ∈ g.devices, d.annotated = false)
    (pre post : List ResourceGroup) :
    (managerDaemons (pre ++ g :: post)).2 = (managerDaemons (pre ++ post)).2 := by
  refine managerDaemons_skip g (Or.inr ?_) pre post
  simp only [AnyHasAnnotations, List.any_eq_false]
  intro d hd
  simp [h d hd]

/-- Witness for C7: removing a leading unannotated group leaves the result
unchanged. -/
theorem c7_witness :
    (managerDaemons ([] ++ ResourceGroup.mk "gpu1" [⟨"b", false, false, 1⟩] :: [⟨"gpu0", [⟨"a", true, false, 2⟩]⟩])).2 =
      (managerDaemons ([] ++ [⟨"gpu0", [⟨"a", true, false, 2⟩]⟩])).2 :=
  c7_unannotated_group_excluded ⟨"gpu1", [⟨"b", false, false, 1⟩]⟩ (by decide)
    [] [⟨"gpu0", [⟨"a", true, false, 2⟩]⟩]

/-- Claim C8: on success, the output is exactly the image, in input order,
of the input groups that survive the filters (non-empty and carrying a
sharing annotation), one DaemonSpec per surviving group — so the relative
order of the originating groups is preserved. -/
theorem c8_output_order_matches_input (gs : List ResourceGroup) (ds : List Daemon)
    (h : (managerDaemons gs).2 = Except.ok ds) :
    ds = (gs.filter (fun g => decide (g.devices ≠ []) && AnyHasAnnotations g.devices)).map NewDaemon :=
  managerDaemons_ok_filter gs ds h

/-- Witness for C8: of two groups, only the first (annotated) one survives,
and the output lists its daemon. -/
theorem c8_witness :
    [NewDaemon ⟨"gpu0", [⟨"a", true, false, 2⟩]⟩] =
      (List.filter (fun g => decide (g.devices ≠ []) && AnyHasAnnotations g.devices)
        [ResourceGroup.mk "gpu0" [⟨"a", true, false, 2⟩], ResourceGroup.mk "gpu1" [⟨"b", false, false, 1⟩]]).map NewDaemon :=
  c8_output_order_matches_input
    [⟨"gpu0", [⟨"a", true, false, 2⟩]⟩, ⟨"gpu1", [⟨"b", false, false, 1⟩]⟩]
    [NewDaemon ⟨"gpu0", [⟨"a", true, false, 2⟩]⟩] (by rfl)

/-- Claim C9: `New` never fails — with a configuration installed, both the
null-manager branch and the real-manager branch return a nil error. -/
theorem c9_new_never_fails (config : Config) : (New config).2 = none := by
  by_cases h : config.strategy = SharingStrategy.MPS <;> simp [New, h]

/-- Claim C10: replica validation is never applied to MIG devices — as long
as every non-MIG device has a positive replica count, the pass succeeds,
whatever (zero or negative) replica counts the MIG devices declare. -/
theorem c10_mig_devices_never_cause_error (gs : List ResourceGroup)
    (h : ∀ g ∈ gs, ∀ d ∈ g.devices, d.isMigDevice = false → 0 < d.replicas) :
    ∃ ds, (managerDaemons gs).2 = Except.ok ds :=
  managerDaemons_ok_of gs h

/-- Witness for C10: a MIG device with replica count zero next to a valid
shared device does not make the pass fail. -/
theorem c10_witness :
    ∃ ds, (managerDaemons [⟨"gpu0", [⟨"mig0", true, true, 0⟩, ⟨"a", true, false, 2⟩]⟩]).2 = Except.ok ds :=
  c10_mig_devices_never_cause_error [⟨"gpu0", [⟨"mig0", true, true, 0⟩, ⟨"a", true, false, 2⟩]⟩] (by decide)

end Mps
